import Mathlib

/-!
Verification of the Openwork desktop presentation layer: the onboarding
overlay (OnboardingWizard.tsx), the sidebar conversation list item
(ConversationListItem), and the shared auth/session/quota data shapes
(packages/shared/src/types/auth.ts).

Side-effecting component behaviour is embedded as explicit effect traces:
a handler or lifecycle hook is a function returning the list of collaborator
calls it issues, in order. Rendering is a pure function from the component's
inputs to a view value.
-/

namespace Openwork

/-- Log severity accepted by the logging collaborator (accomplish.logEvent). -/
inductive LogLevel where
  | info
  | warn
  | error
  deriving DecidableEq, Repr

/-- Argument record of a logEvent call: a severity and a message. -/
structure LogEventArg where
  level : LogLevel
  message : String
  deriving DecidableEq, Repr

/-- One collaborator call issued by a component: a log event, an invocation of
the caller-supplied onComplete callback, or a navigation to a path. -/
inductive Effect where
  | logEvent (arg : LogEventArg)
  | invokeOnComplete
  | navigate (path : String)
  deriving DecidableEq, Repr

/-- Number of occurrences of the effect e in a trace. -/
def countEffect (e : Effect) : List Effect → Nat
  | [] => 0
  | x :: xs => (if x = e then 1 else 0) + countEffect e xs

/-- The log event emitted by the OnboardingWizard mount hook. -/
def startedLogEffect : Effect :=
  Effect.logEvent { level := LogLevel.info, message := "Onboarding wizard started" }

/-- The log event emitted by handleGetStarted. -/
def completedLogEffect : Effect :=
  Effect.logEvent { level := LogLevel.info, message := "Onboarding completed" }

/-- Trace of the OnboardingWizard useEffect body, run once on mount: a single
info-level log call and nothing else. -/
def onboardingMountEffects : List Effect :=
  [startedLogEffect]

/-- Trace of one invocation of OnboardingWizard.handleGetStarted: log the
completion event, then invoke the onComplete callback. -/
def handleGetStarted : List Effect :=
  [completedLogEffect, Effect.invokeOnComplete]

/-- Trace of n successive clicks of the Get Started button: n invocations of
handleGetStarted, concatenated in order. -/
def getStartedClicks : Nat → List Effect
  | 0 => []
  | n + 1 => getStartedClicks n ++ handleGetStarted

/-- handleGetStarted with the asynchronous outcome of the logEvent call made
explicit. The source fires accomplish.logEvent without awaiting it and calls
onComplete unconditionally on the next statement, so the trace is the same
whatever the logging collaborator returns or throws. -/
def handleGetStartedWithLogOutcome (_logOutcome : Except String Unit) : List Effect :=
  handleGetStarted

/-- Modelled from the spec: the Task record is owned by the (unseen) task
store and is not in the excerpt; §3 gives it an identifier, prompt text, and
a status that is at minimum running | completed | other, read by the list
item as plain strings. -/
structure Task where
  id : String
  prompt : String
  status : String
  deriving DecidableEq, Repr

/-- The ambient router location as read by useLocation: its pathname string. -/
structure Location where
  pathname : String
  deriving DecidableEq, Repr

/-- The path built by the template literal in ConversationListItem. -/
def execPath (id : String) : String :=
  "/execution/" ++ id

/-- ConversationListItem.isActive: the current pathname equals the path
derived from the task identifier. -/
def isActive (task : Task) (loc : Location) : Bool :=
  loc.pathname == execPath task.id

/-- The two icon kinds ConversationListItem can place in the row. -/
inductive StatusIcon where
  | spinner
  | check
  deriving DecidableEq, BEq, Repr

/-- ConversationListItem.getStatusIcon: running yields the spinning Loader2,
completed yields CheckCircle2, any other status yields no icon. A Lean def is
total, matching the source, which falls through to null on every
unrecognized status string. -/
def getStatusIcon (task : Task) : Option StatusIcon :=
  if task.status == "running" then some StatusIcon.spinner
  else if task.status == "completed" then some StatusIcon.check
  else none

/-- The rendered row of ConversationListItem: the active flag, the status
icons actually placed in the row, and the prompt label. -/
structure RowView where
  active : Bool
  icons : List StatusIcon
  label : String
  deriving DecidableEq, Repr

/-- Render of ConversationListItem as a pure function of the task and the
ambient location: active is recomputed from both on every call, the icon list
is the (zero- or one-element) result of getStatusIcon. -/
def renderRow (task : Task) (loc : Location) : RowView :=
  { active := isActive task loc
    icons := (getStatusIcon task).toList
    label := task.prompt }

/-- Number of occurrences of the icon i in a rendered icon list. -/
def countIcon (i : StatusIcon) : List StatusIcon → Nat
  | [] => 0
  | x :: xs => (if x = i then 1 else 0) + countIcon i xs

/-- ConversationListItem.handleClick: navigate to the derived path. The
ambient location is in scope in the component but the handler does not read
it, so the trace takes it as an argument it ignores. -/
def handleClick (task : Task) (_loc : Location) : List Effect :=
  [Effect.navigate (execPath task.id)]

/-- The closed tone enumeration of FeatureCard. -/
inductive FeatureTone where
  | blue
  | teal
  | purple
  | green
  deriving DecidableEq, BEq, Repr

/-- The Record of FeatureCard.toneStyles, embedded as an association list so
that the indexed access toneStyles[tone] is an explicit lookup. -/
def toneStyleEntries : List (FeatureTone × String) :=
  [(FeatureTone.blue, "bg-blue-500/10 text-blue-600"),
   (FeatureTone.teal, "bg-teal-500/10 text-teal-600"),
   (FeatureTone.purple, "bg-purple-500/10 text-purple-600"),
   (FeatureTone.green, "bg-green-500/10 text-green-600")]

/-- The indexed access toneStyles[tone] performed while rendering a feature
panel. -/
def toneStyleLookup (tone : FeatureTone) : Option String :=
  toneStyleEntries.lookup tone

/-- Session record from packages/shared/src/types/auth.ts, fields and
optionality as declared; timestamps are ISO-8601 strings as in the source. -/
structure Session where
  id : String
  userId : String
  deviceId : Option String
  deviceName : Option String
  createdAt : String
  expiresAt : String
  deriving DecidableEq, Repr

/-- Modelled from the spec: the ingress validator for Session is not in the
excerpt (auth.ts only declares the shape); §4.3 and §8 require it to accept a
session only when expiresAt > createdAt. Timestamps are compared as strings;
for the fixed ISO-8601 format lexicographic order is chronological order. -/
def validateSession (s : Session) : Bool :=
  decide (s.createdAt < s.expiresAt)

/-- QuotaStatus record from packages/shared/src/types/auth.ts; the counters
are TypeScript numbers holding counts, embedded as integers. -/
structure QuotaStatus where
  callsUsed : Int
  callsLimit : Int
  remaining : Int
  resetsAt : Option String
  deriving DecidableEq, Repr

/-- The spec invariant on QuotaStatus: remaining is the difference of limit
and used, clamped at zero. -/
def quotaInvariant (q : QuotaStatus) : Prop :=
  q.remaining = max 0 (q.callsLimit - q.callsUsed)

/-- Modelled from the spec: no producer of QuotaStatus is in the excerpt
(auth.ts only declares the shape); a conforming producer sets remaining to
the clamped difference of the known counters. -/
def mkQuotaStatus (used limit : Int) (resetsAt : Option String) : QuotaStatus :=
  { callsUsed := used
    callsLimit := limit
    remaining := max 0 (limit - used)
    resetsAt := resetsAt }

/-- Every occurrence of invokeOnComplete in the trace is preceded by at least
as many completion-log calls: in every way of splitting the trace, the left
part holds at least as many completion logs as callback invocations. -/
def logPrecedesComplete (l : List Effect) : Prop :=
  ∀ p q : List Effect, l = p ++ q →
    countEffect Effect.invokeOnComplete p ≤ countEffect completedLogEffect p

/-- A concrete Session whose two timestamps are equal, the shape named by the
spec as one an ingress validator must reject. -/
def degenerateSession : Session :=
  { id := "sess-1"
    userId := "user-1"
    deviceId := none
    deviceName := none
    createdAt := "2024-01-01T00:00:00Z"
    expiresAt := "2024-01-01T00:00:00Z" }

theorem countEffect_append (e : Effect) (xs ys : List Effect) :
    countEffect e (xs ++ ys) = countEffect e xs + countEffect e ys := by
  induction xs with
  | nil => simp [countEffect]
  | cons x xs ih => simp [countEffect, ih, Nat.add_assoc]

theorem logPrecedesComplete_nil : logPrecedesComplete [] := by
  intro p q h
  obtain ⟨hp, -⟩ := List.append_eq_nil.mp h.symm
  subst hp
  simp [countEffect]

theorem logPrecedesComplete_handleGetStarted : logPrecedesComplete handleGetStarted := by
  intro p q h
  match p, h with
  | [], _ => simp [countEffect]
  | [x], h =>
      have h2 : completedLogEffect :: ([Effect.invokeOnComplete] : List Effect) = x :: q := h
      obtain ⟨hx, -⟩ := List.cons.inj h2
      subst hx
      simp [countEffect, completedLogEffect]
  | x :: y :: p2, h =>
      have h2 : completedLogEffect :: Effect.invokeOnComplete :: ([] : List Effect)
          = x :: (y :: (p2 ++ q)) := by
        simpa [handleGetStarted] using h
      obtain ⟨hx, h3⟩ := List.cons.inj h2
      obtain ⟨hy, h4⟩ := List.cons.inj h3
      obtain ⟨hp2, -⟩ := List.append_eq_nil.mp h4.symm
      subst hx; subst hy; subst hp2
      simp [countEffect, completedLogEffect]

theorem countEffect_log_handleGetStarted :
    countEffect completedLogEffect handleGetStarted = 1 := by
  simp [countEffect, handleGetStarted, completedLogEffect]

theorem countEffect_complete_handleGetStarted :
    countEffect Effect.invokeOnComplete handleGetStarted = 1 := by
  simp [countEffect, handleGetStarted, completedLogEffect]

theorem logPrecedesComplete_append (l1 l2 : List Effect)
    (h1 : logPrecedesComplete l1) (h2 : logPrecedesComplete l2) :
    logPrecedesComplete (l1 ++ l2) := by
  intro p q h
  rcases List.append_eq_append_iff.mp h.symm with ⟨a, ha1, ha2⟩ | ⟨c, hc1, hc2⟩
  · -- p is a left part of l1
    exact h1 p a ha1
  · -- p extends past l1: p = l1 ++ c with c a left part of l2
    subst hc1
    have hl1 : countEffect Effect.invokeOnComplete l1 ≤ countEffect completedLogEffect l1 :=
      h1 l1 [] (by simp)
    have hlc : countEffect Effect.invokeOnComplete c ≤ countEffect completedLogEffect c :=
      h2 c q hc2
    simp only [countEffect_append]
    exact Nat.add_le_add hl1 hlc

theorem logPrecedesComplete_clicks (n : Nat) : logPrecedesComplete (getStartedClicks n) := by
  induction n with
  | zero => exact logPrecedesComplete_nil
  | succ n ih =>
      exact logPrecedesComplete_append _ _ ih logPrecedesComplete_handleGetStarted

/-- C1: the status icon of ConversationListItem is a total function of the
task status: a running task renders exactly one spinner and no check, a
completed task exactly one check and no spinner, and any other status value
renders zero status icons; getStatusIcon is a total Lean function, so no
status value can make it fail. -/
theorem statusIcon_total_mapping (task : Task) (loc : Location) :
    countIcon StatusIcon.spinner (renderRow task loc).icons
      = (if task.status = "running" then 1 else 0) ∧
    countIcon StatusIcon.check (renderRow task loc).icons
      = (if task.status = "completed" then 1 else 0) ∧
    (renderRow task loc).icons.length
      = (if task.status = "running" then 1 else if task.status = "completed" then 1 else 0) := by
  by_cases hr : task.status = "running"
  · simp [renderRow, getStatusIcon, countIcon, hr]
  · by_cases hc : task.status = "completed"
    · simp [renderRow, getStatusIcon, countIcon, hr, hc]
    · simp [renderRow, getStatusIcon, countIcon, hr, hc]

/-- C2: the row is in the active visual state iff the ambient location's
pathname string-equals /execution/ followed by the task id; the flag is a
pure function of the task and the location passed to this render. -/
theorem active_iff_location_matches (task : Task) (loc : Location) :
    (renderRow task loc).active = true ↔ loc.pathname = "/execution/" ++ task.id := by
  simp [renderRow, isActive, execPath]

/-- C3: one click of the row issues exactly one navigation, to exactly
/execution/ followed by the task id, and nothing else; the trace does not
depend on the ambient location, so no pre-check against the current path is
performed. -/
theorem click_navigates_once (task : Task) (loc loc2 : Location) :
    countEffect (Effect.navigate ("/execution/" ++ task.id)) (handleClick task loc) = 1 ∧
    (handleClick task loc).length = 1 ∧
    handleClick task loc = handleClick task loc2 := by
  refine ⟨?_, rfl, rfl⟩
  simp [handleClick, countEffect, execPath]

/-- C4: n clicks of the Get Started button emit exactly n completion log
events and invoke the onComplete callback exactly n times; there is no
deduplication or completion guard. -/
theorem clicks_no_dedup (n : Nat) :
    countEffect completedLogEffect (getStartedClicks n) = n ∧
    countEffect Effect.invokeOnComplete (getStartedClicks n) = n := by
  induction n with
  | zero => simp [getStartedClicks, countEffect]
  | succ n ih =>
      obtain ⟨ih1, ih2⟩ := ih
      constructor
      · simp [getStartedClicks, countEffect_append, ih1, countEffect_log_handleGetStarted]
      · simp [getStartedClicks, countEffect_append, ih2, countEffect_complete_handleGetStarted]

/-- C5: a conforming producer of QuotaStatus satisfies the invariant that
remaining is the clamped difference of limit and used and is never negative;
in particular used 7 of limit 10 gives remaining 3, and used 12 of limit 10
gives remaining 0, not a negative value. -/
theorem quota_remaining_clamped (used limit : Int) (r : Option String) :
    quotaInvariant (mkQuotaStatus used limit r) ∧
    0 ≤ (mkQuotaStatus used limit r).remaining ∧
    (mkQuotaStatus 7 10 none).remaining = 3 ∧
    (mkQuotaStatus 12 10 none).remaining = 0 := by
  refine ⟨rfl, le_max_left 0 (limit - used), ?_, ?_⟩ <;> decide

/-- C6: a Session whose expiry timestamp equals its creation timestamp
violates the invariant that expiresAt exceeds createdAt, and the ingress
validator rejects it. -/
theorem equal_timestamps_rejected (s : Session) (h : s.createdAt = s.expiresAt) :
    validateSession s = false := by
  unfold validateSession
  rw [← h]
  exact decide_eq_false (lt_irrefl s.createdAt)

/-- Witness for C6: the validator rejects the concrete session whose two
timestamps are both 2024-01-01T00:00:00Z. -/
theorem equal_timestamps_rejected_witness :
    validateSession degenerateSession = false :=
  equal_timestamps_rejected degenerateSession rfl

/-- C7: mounting the onboarding overlay emits exactly one log event, with
level info and message Onboarding wizard started, and the mount trace
contains no other effect. -/
theorem mount_logs_started_once :
    countEffect startedLogEffect onboardingMountEffects = 1 ∧
    onboardingMountEffects.length = 1 := by
  constructor
  · simp [onboardingMountEffects, countEffect]
  · rfl

/-- C8: the completion callback invocation does not depend on the outcome of
the log call: whatever the logging collaborator returns or throws, the click
trace still invokes onComplete exactly once and still issues the log call,
and the trace is identical across outcomes. -/
theorem completion_not_blocked_by_log (logOutcome logOutcome2 : Except String Unit) :
    countEffect Effect.invokeOnComplete (handleGetStartedWithLogOutcome logOutcome) = 1 ∧
    countEffect completedLogEffect (handleGetStartedWithLogOutcome logOutcome) = 1 ∧
    handleGetStartedWithLogOutcome logOutcome = handleGetStartedWithLogOutcome logOutcome2 := by
  refine ⟨?_, ?_, rfl⟩ <;>
    simp [handleGetStartedWithLogOutcome, handleGetStarted, countEffect, completedLogEffect]

/-- C9: over any number of clicks, every way of splitting the trace shows at
least as many completion-log calls as callback invocations on the left, so
the component never invokes onComplete without first having issued the
Onboarding completed log call. -/
theorem log_emitted_before_callback (n : Nat) :
    logPrecedesComplete (getStartedClicks n) :=
  logPrecedesComplete_clicks n

/-- Witness for C9: the ordering property at the concrete two-click trace. -/
theorem log_emitted_before_callback_witness :
    logPrecedesComplete (getStartedClicks 2) :=
  log_emitted_before_callback 2

/-- C10: the tone-to-style record is total over the closed FeatureTone
enumeration: the lookup toneStyles[tone] is defined for every tone a
FeatureCard can be given, so rendering a feature panel never reads an
undefined style. -/
theorem toneStyles_total (tone : FeatureTone) :
    (toneStyleLookup tone).isSome = true := by
  cases tone <;> rfl

end Openwork
